import Mathlib

/-
Shallow embedding of bot_script_runner (src/main.rs), a V8 script runner
that executes one untrusted script under a CPU-time budget (a watchdog
thread) and a heap budget (a near-heap-limit callback setting an atomic
flag), and reports one string result or one string error over stdin/stdout
JSON framing.

The engine (rusty_v8) is foreign: engine interactions are modelled by their
observable outcomes. A run of the engine is summarized by a `RawRun` (what
the compile/run/to_string chain produced) and a `V8Scope` (what the
TryCatch scope reports at error time: whether execution is terminating and
the rendered exception message, if any). The shared atomic flags are
modelled as plain Booleans fixed for the run, since each claim concerns a
given flag state.
-/

namespace BotScriptRunner

/-- Constant from src/main.rs line 3: 10 MB old space. -/
def MAX_OLD_SPACE_SIZE_BYTES : Nat := 10 * 1024 * 1024

/-- Constant from src/main.rs line 4: 5 MB young space. -/
def MAX_YOUNG_SPACE_SIZE_BYTES : Nat := 5 * 1024 * 1024

/-- Constant from src/main.rs line 5: 250 ms CPU budget. -/
def CPU_EXECUTION_TIMEOUT_MS : Nat := 250

/-- Heap limits handed to `Isolate::new` by `create_params` (src/main.rs
lines 32-38): initial 0, max = old + young space. -/
def create_params_heap_limits : Nat × Nat :=
  (0, MAX_OLD_SPACE_SIZE_BYTES + MAX_YOUNG_SPACE_SIZE_BYTES)

/-- Observable state of the `rusty_v8::TryCatch` scope at the moment
`get_error` is called: `scope.is_execution_terminating()` and
`scope.exception()`, the latter carried as its rendered message
(`Exception::create_message(..).get(..).to_rust_string_lossy(..)`). -/
structure V8Scope where
  is_execution_terminating : Bool
  exception : Option String
deriving DecidableEq

/-- Embedding of `get_error` (src/main.rs lines 7-30). The
`near_heap_limit_reached_flag` argument is the value the atomic flag holds
at the load on line 11. -/
def get_error (scope : V8Scope) (near_heap_limit_reached_flag : Bool) : String :=
  if near_heap_limit_reached_flag then
    if scope.is_execution_terminating || scope.exception.isSome then
      "Execution error: V8 was near heap allocation limit"
    else
      "V8 was near heap allocation limit"
  else if scope.is_execution_terminating then
    "Execution timed out"
  else
    match scope.exception with
    | some exp => exp
    | none => "Unknown error"

/-- Outcome of the engine interaction in `exec_v8` (src/main.rs lines
107-122): compilation failed (`Script::compile` returned `None`),
execution failed (`script.run` returned `None`), string conversion failed
(`val.to_string` returned `None`), or a value was produced and coerced to
the string `s`. -/
inductive RawRun where
  | compileFail
  | runFail
  | toStringFail
  | value (s : String)
deriving DecidableEq

/-- The `result` binding of `exec_v8` (src/main.rs lines 100-123): `Ok` of
the coerced string on full success, otherwise `Err (get_error ..)`. -/
def sessionResult (raw : RawRun) (scope : V8Scope) (near_heap_limit_reached : Bool) :
    Except String String :=
  match raw with
  | .value s => .ok s
  | .compileFail => .error (get_error scope near_heap_limit_reached)
  | .runFail => .error (get_error scope near_heap_limit_reached)
  | .toStringFail => .error (get_error scope near_heap_limit_reached)

/-- Embedding of `exec_v8`'s returned value (src/main.rs lines 100-143):
the session result, overridden to the post-hoc heap error when the
near-heap-limit flag is set and the session result was `Ok`. -/
def exec_v8 (raw : RawRun) (scope : V8Scope) (near_heap_limit_reached : Bool) :
    Except String String :=
  let result := sessionResult raw scope near_heap_limit_reached
  if near_heap_limit_reached then
    match result with
    | .ok _ => .error "Execution finished, but V8 was near heap allocation limit."
    | .error e => .error e
  else
    result

/-- The error messages of `exec_v8` that report the heap limit: the two
branches of `get_error` under the flag (src/main.rs lines 15, 19) and the
post-hoc override (src/main.rs line 136). -/
def heapLimitMessages : List String :=
  ["Execution error: V8 was near heap allocation limit",
   "V8 was near heap allocation limit",
   "Execution finished, but V8 was near heap allocation limit."]

/-- The `ScriptResult` struct serialized to stdout (src/main.rs lines
146-150). -/
structure ScriptResult where
  result : String
  error : String
deriving DecidableEq

/-- The transport mapping in `main` (src/main.rs lines 171-180): an `Ok`
from `exec_v8` fills `result` and leaves `error` empty; an `Err` fills
`error` and leaves `result` empty. -/
def toScriptResult : Except String String → ScriptResult
  | .ok s => { result := s, error := "" }
  | .error s => { result := "", error := s }

/-- State of the thread-safe isolate handle, reduced to its one
capability: whether `terminate_execution` has been requested on it. -/
structure IsolateHandle where
  terminate_requested : Bool
deriving DecidableEq

/-- Body of the watchdog thread spawned in `exec_v8` (src/main.rs lines
93-98), after the sleep: `completed_flag` is the value of the atomic the
thread loads; it calls `terminate_execution` on the handle only when that
flag is still unset. -/
def timeout_monitor_body (completed_flag : Bool) (handle : IsolateHandle) : IsolateHandle :=
  if !completed_flag then
    { handle with terminate_requested := true }
  else
    handle

/-- Governor state shared with the engine callbacks: the near-heap-limit
flag (src/main.rs line 72) and the completed flag (src/main.rs line 90). -/
structure GovernorState where
  near_heap_limit_reached : Bool
  completed : Bool
deriving DecidableEq

/-- Embedding of `near_heap_limit_cb` (src/main.rs lines 55-69): stores
`true` into the shared flag through the raw data pointer and returns
`current_heap_limit` to the engine. The pair is (new governor state,
returned heap limit). -/
def near_heap_limit_cb (st : GovernorState) (current_heap_limit : Nat)
    (_initial_heap_limit : Nat) : GovernorState × Nat :=
  ({ st with near_heap_limit_reached := true }, current_heap_limit)

/-- The statements of `exec_v8`'s own thread, in source order (src/main.rs
lines 72-143). `cancelTerminateExecution` is the rusty_v8 capability that
would clear a pending abort; it names a call site `exec_v8` could contain. -/
inductive Event where
  | createHeapFlag
  | createIsolate
  | setOomHandler
  | addNearHeapLimitCallback
  | getThreadSafeHandle
  | createCompletedFlag
  | spawnWatchdog
  | runSession
  | storeCompleted
  | joinWatchdog
  | loadHeapFlag
  | cancelTerminateExecution
  | ret
deriving DecidableEq

/-- The straight-line trace of `exec_v8` (src/main.rs lines 72-143):
flag allocation (72), isolate creation (79), OOM handler (80), heap
callback registration (86), handle acquisition (88), completed flag (90),
watchdog spawn (93), the scoped compile/run block (100-123), the completed
store (124), the join (125), the post-hoc flag load (131), and the return
(143). No other engine call occurs on this thread. -/
def execEvents : List Event :=
  [.createHeapFlag, .createIsolate, .setOomHandler, .addNearHeapLimitCallback,
   .getThreadSafeHandle, .createCompletedFlag, .spawnWatchdog, .runSession,
   .storeCompleted, .joinWatchdog, .loadHeapFlag, .ret]

/-- Result of `std::io::stdin().read_line` in `main` (src/main.rs line
162): a line was read, or the read failed (leaving `input_str` as the
empty string it was initialized to on line 161). -/
inductive ReadLineResult where
  | ok (line : String)
  | err
deriving DecidableEq

/-- Observable behaviour of one `main` execution: the `ScriptResult`
values printed (in order) and whether `main` panicked. -/
structure MainRun where
  printed : List ScriptResult
  panicked : Bool
deriving DecidableEq

/-- Embedding of `main` after platform initialization (src/main.rs lines
161-182). `parse` stands for `serde_json::from_str::<Input>` of the
external serde collaborator, returning the `script` field on success;
`exec` stands for the `exec_v8` call on the parsed script. On a read
error, `main` prints the `{ result: "", error: "Error" }` object and falls
through; the subsequent `.unwrap()` of the parse result (line 169) panics
when parsing fails. -/
def mainModel (read : ReadLineResult) (parse : String → Option String)
    (exec : String → Except String String) : MainRun :=
  let pre : List ScriptResult :=
    match read with
    | .ok _ => []
    | .err => [{ result := "", error := "Error" }]
  let input_str : String :=
    match read with
    | .ok line => line
    | .err => ""
  match parse input_str with
  | none => { printed := pre, panicked := true }
  | some script => { printed := pre ++ [toScriptResult (exec script)], panicked := false }

/-- C1: when a session-level exception or termination signal is present,
`get_error` resolves by fixed precedence: a set near-heap-limit flag gives
the heap message, otherwise a terminating engine gives the timeout
message, otherwise the caught exception's rendered message is returned. -/
theorem get_error_precedence (scope : V8Scope) (flag : Bool)
    (hsig : scope.is_execution_terminating = true ∨ scope.exception.isSome = true) :
    get_error scope flag =
      if flag then "Execution error: V8 was near heap allocation limit"
      else if scope.is_execution_terminating then "Execution timed out"
      else scope.exception.getD "Unknown error" := by
  rcases hsig with h | h
  · cases flag <;> simp [get_error, h]
  · obtain ⟨m, hm⟩ := Option.isSome_iff_exists.mp h
    cases flag <;> cases hterm : scope.is_execution_terminating <;>
      simp [get_error, hm, hterm]

/-- Witness for C1 at a concrete terminating scope with the flag set, and
at a non-terminating scope carrying an exception with the flag unset. -/
theorem get_error_precedence_witness :
    get_error ⟨true, none⟩ true = "Execution error: V8 was near heap allocation limit" ∧
    get_error ⟨false, some "ReferenceError: x is not defined"⟩ false =
      "ReferenceError: x is not defined" := by
  constructor
  · have h := get_error_precedence ⟨true, none⟩ true (Or.inl rfl)
    simpa using h
  · have h := get_error_precedence ⟨false, some "ReferenceError: x is not defined"⟩ false
      (Or.inr rfl)
    simpa using h

/-- C2: whenever the near-heap-limit flag is set, `exec_v8` returns an
error reporting the heap limit, whatever the session's raw result — in
particular even when the script ran to completion and produced a value. -/
theorem exec_v8_heap_flag_forces_error (raw : RawRun) (scope : V8Scope) :
    ∃ m, exec_v8 raw scope true = .error m ∧ m ∈ heapLimitMessages := by
  obtain ⟨term, exc⟩ := scope
  cases raw <;> cases term <;> cases exc <;>
    simp [exec_v8, sessionResult, get_error, heapLimitMessages]

/-- C3: when the heap flag is unset and the engine is not terminating, a
run that compiled, produced a value, and coerced it to the string `s`
makes `exec_v8` return `Ok s`. -/
theorem exec_v8_success (s : String) (scope : V8Scope)
    (_hterm : scope.is_execution_terminating = false) :
    exec_v8 (.value s) scope false = .ok s := by
  simp [exec_v8, sessionResult]

/-- Witness for C3: a scope with no signal and the coerced value "2"
(e.g. from the script 1 + 1) yields `Ok "2"`. -/
theorem exec_v8_success_witness :
    (⟨false, none⟩ : V8Scope).is_execution_terminating = false ∧
    exec_v8 (.value "2") ⟨false, none⟩ false = .ok "2" :=
  ⟨rfl, exec_v8_success "2" ⟨false, none⟩ rfl⟩

/-- C4: the watchdog requests termination only if the completed flag is
still unset when the budget elapses, and in `exec_v8`'s trace the join of
the watchdog precedes both the read of the verdict flag and the return. -/
theorem watchdog_guarded_and_joined (completed_flag : Bool) (handle : IsolateHandle)
    (hfresh : handle.terminate_requested = false) :
    ((timeout_monitor_body completed_flag handle).terminate_requested = true ↔
      completed_flag = false) ∧
    List.indexOf Event.joinWatchdog execEvents < List.indexOf Event.loadHeapFlag execEvents ∧
    List.indexOf Event.joinWatchdog execEvents < List.indexOf Event.ret execEvents := by
  refine ⟨?_, by decide, by decide⟩
  cases completed_flag <;> simp [timeout_monitor_body, hfresh]

/-- Witness for C4 at a fresh handle with the completed flag unset: the
watchdog does invoke termination there. -/
theorem watchdog_guarded_and_joined_witness :
    (⟨false⟩ : IsolateHandle).terminate_requested = false ∧
    (timeout_monitor_body false ⟨false⟩).terminate_requested = true :=
  ⟨rfl, (watchdog_guarded_and_joined false ⟨false⟩ rfl).1.mpr rfl⟩

/-- C5 counterexample: `exec_v8` can return `Ok ""` (a script whose value
coerces to the empty string), and then the transport object has BOTH
fields empty — the claimed "non-empty result with error empty" fails. -/
theorem toScriptResult_both_empty :
    (toScriptResult (exec_v8 (.value "") ⟨false, none⟩ false)).result = "" ∧
    (toScriptResult (exec_v8 (.value "") ⟨false, none⟩ false)).error = "" := by
  constructor <;> rfl

/-- C5 amended: an `Ok s` from `exec_v8` yields `{ result := s, error := "" }`
and an `Err e` yields `{ result := "", error := e }`; whenever the carried
payload is non-empty, exactly the corresponding field is populated. -/
theorem toScriptResult_partition (s e : String) :
    toScriptResult (.ok s) = { result := s, error := "" } ∧
    toScriptResult (.error e) = { result := "", error := e } ∧
    (s ≠ "" → (toScriptResult (.ok s)).result ≠ "" ∧ (toScriptResult (.ok s)).error = "") ∧
    (e ≠ "" → (toScriptResult (.error e)).error ≠ "" ∧ (toScriptResult (.error e)).result = "") := by
  refine ⟨rfl, rfl, fun h => ⟨h, rfl⟩, fun h => ⟨h, rfl⟩⟩

/-- Witness for the amended C5 at the payloads "2" and "Execution timed
out". -/
theorem toScriptResult_partition_witness :
    toScriptResult (.ok "2") = { result := "2", error := "" } ∧
    (toScriptResult (.error "Execution timed out")).error ≠ "" :=
  ⟨(toScriptResult_partition "2" "Execution timed out").1,
   ((toScriptResult_partition "2" "Execution timed out").2.2.2 (by decide)).1⟩

/-- C6: when compilation fails with the engine's diagnostic caught as the
scope exception, and neither the heap flag nor a termination signal is
present, `exec_v8` returns exactly that diagnostic as the error. -/
theorem exec_v8_compile_error (diag : String) (scope : V8Scope)
    (hexc : scope.exception = some diag)
    (hterm : scope.is_execution_terminating = false) :
    exec_v8 .compileFail scope false = .error diag := by
  simp [exec_v8, sessionResult, get_error, hexc, hterm]

/-- Witness for C6 at a concrete compile diagnostic. -/
theorem exec_v8_compile_error_witness :
    (⟨false, some "SyntaxError: Unexpected end of input"⟩ : V8Scope).exception =
      some "SyntaxError: Unexpected end of input" ∧
    exec_v8 .compileFail ⟨false, some "SyntaxError: Unexpected end of input"⟩ false =
      .error "SyntaxError: Unexpected end of input" :=
  ⟨rfl, exec_v8_compile_error "SyntaxError: Unexpected end of input"
    ⟨false, some "SyntaxError: Unexpected end of input"⟩ rfl rfl⟩

/-- C7 counterexample: in the defensive case (heap flag unset, engine not
terminating, no exception, no value) the code's error message is
"Unknown error", not the claimed "no value and no exception". -/
theorem exec_v8_unknown_message_differs :
    exec_v8 .runFail ⟨false, none⟩ false = .error "Unknown error" ∧
    exec_v8 .runFail ⟨false, none⟩ false ≠ .error "no value and no exception" := by
  have h1 : exec_v8 .runFail ⟨false, none⟩ false = .error "Unknown error" := rfl
  refine ⟨h1, ?_⟩
  rw [h1]
  intro hcontra
  exact absurd (Except.error.inj hcontra) (by decide)

/-- C7 amended: in the defensive case (heap flag unset, engine not
terminating, no exception observable, and no value produced) `exec_v8`
returns the failure `Err "Unknown error"` — an error, never a success or
a silent drop. -/
theorem exec_v8_unknown_error (raw : RawRun) (scope : V8Scope)
    (hterm : scope.is_execution_terminating = false)
    (hexc : scope.exception = none)
    (hraw : ∀ s, raw ≠ .value s) :
    exec_v8 raw scope false = .error "Unknown error" := by
  cases raw with
  | value s => exact absurd rfl (hraw s)
  | compileFail => simp [exec_v8, sessionResult, get_error, hterm, hexc]
  | runFail => simp [exec_v8, sessionResult, get_error, hterm, hexc]
  | toStringFail => simp [exec_v8, sessionResult, get_error, hterm, hexc]

/-- Witness for the amended C7 at the empty-signal scope with a failed
run. -/
theorem exec_v8_unknown_error_witness :
    exec_v8 .runFail ⟨false, none⟩ false = .error "Unknown error" :=
  exec_v8_unknown_error .runFail ⟨false, none⟩ rfl rfl (fun s h => by cases h)

/-- C8 counterexample: `exec_v8`'s trace contains no call to the handle's
cancel-terminate capability — no pending abort is ever explicitly
canceled before the function returns. -/
theorem exec_v8_never_cancels :
    Event.cancelTerminateExecution ∉ execEvents := by
  decide

/-- C8 amended: `exec_v8` performs no explicit cancellation of a pending
abort request; instead every call creates its isolate (and hence its
thread-safe handle) fresh at the start of the call, so no handle is shared
with a future session. -/
theorem exec_v8_no_cancel_fresh_isolate :
    Event.cancelTerminateExecution ∉ execEvents ∧
    Event.createIsolate ∈ execEvents ∧
    List.indexOf Event.createIsolate execEvents < List.indexOf Event.runSession execEvents := by
  decide

/-- C9: a stdin line that is not valid JSON for the `Input` shape makes
`main` panic at the `.unwrap()` of the parse result instead of printing an
outcome; after a failed stdin read, `main` prints the
`{ result: "", error: "Error" }` object and still proceeds to parse the
empty buffer and panic. -/
theorem main_panics_on_bad_input (bad : String) (parse : String → Option String)
    (exec : String → Except String String)
    (hbad : parse bad = none) (hempty : parse "" = none) :
    mainModel (.ok bad) parse exec = { printed := [], panicked := true } ∧
    mainModel .err parse exec =
      { printed := [{ result := "", error := "Error" }], panicked := true } := by
  constructor <;> simp [mainModel, hbad, hempty]

/-- Witness for C9 at a concrete non-JSON line and a parse function that
rejects it and the empty string. -/
theorem main_panics_on_bad_input_witness :
    (fun s => if s = "not json" ∨ s = "" then none else some s) "not json" = none ∧
    (mainModel (.ok "not json") (fun s => if s = "not json" ∨ s = "" then none else some s)
      (fun _ => .ok "")).panicked = true := by
  refine ⟨by decide, ?_⟩
  have h := main_panics_on_bad_input "not json"
    (fun s => if s = "not json" ∨ s = "" then none else some s)
    (fun _ => .ok "") (by decide) (by decide)
  rw [h.1]

/-- C10: the near-heap-limit callback's only effect on governor state is
storing `true` into the shared flag (the completed flag is untouched, and
a set flag stays set), and it returns the current heap limit unchanged. -/
theorem near_heap_limit_cb_frame (st : GovernorState) (cur ini : Nat) :
    (near_heap_limit_cb st cur ini).1.near_heap_limit_reached = true ∧
    (near_heap_limit_cb st cur ini).1.completed = st.completed ∧
    (near_heap_limit_cb st cur ini).2 = cur ∧
    (st.near_heap_limit_reached = true →
      (near_heap_limit_cb st cur ini).1.near_heap_limit_reached = true) := by
  exact ⟨rfl, rfl, rfl, fun _ => rfl⟩

/-- Witness for C10 at a concrete governor state and heap limit. -/
theorem near_heap_limit_cb_frame_witness :
    (near_heap_limit_cb ⟨true, false⟩ 15728640 0).1.near_heap_limit_reached = true ∧
    (near_heap_limit_cb ⟨true, false⟩ 15728640 0).2 = 15728640 :=
  ⟨(near_heap_limit_cb_frame ⟨true, false⟩ 15728640 0).2.2.2 rfl,
   (near_heap_limit_cb_frame ⟨true, false⟩ 15728640 0).2.2.1⟩

end BotScriptRunner
